import Mathlib

/-!
Verification of the product-ingestion and search client of the `isabi-`
admin console.  The JavaScript pages are shallowly embedded as pure Lean
functions: every network interaction is a function of the form inputs, the
ambient `localStorage` contents and the (decoded) response, returning the
list of requests that were issued together with the resulting UI state
(status message, stored response data).

Components embedded (one namespace per source component):
* `AddAIProduct`      — `src/unnamed/part_000`: single-call AI-course upload.
* `UploadDigitalProduct` — the digital-file upload page.
* `AddProduct`        — `AdminPanel.jsx`: the two-phase AI-course flow
  (metadata-only record creation, then a video-processing call).
* `SearchDigitalProduct`, `VectorSearch` — the search pipeline.
-/

namespace Isabi

/-! ## JavaScript string primitives -/

/-- Whitespace characters recognised by the JavaScript `String.prototype.trim`. -/
def isJsSpace (c : Char) : Bool :=
  c == ' ' || c == '\t' || c == '\n' || c == '\r' || c == '\x0b' || c == '\x0c'

/-- JavaScript `s.trim()`: strip leading and trailing whitespace. -/
def jsTrim (s : String) : String :=
  ⟨(((s.data.dropWhile isJsSpace).reverse).dropWhile isJsSpace).reverse⟩

/-- JavaScript falsiness of a string: exactly the empty string is falsy. -/
def jsFalsyStr (s : String) : Bool := s.data.isEmpty

/-- Does `sub` occur at the very start of `hay`? (helper for `hasSub`). -/
def leadsWith : List Char → List Char → Bool
  | [], _ => true
  | _ :: _, [] => false
  | a :: as, b :: bs => a == b && leadsWith as bs

/-- Does `sub` occur contiguously anywhere inside `hay`? -/
def hasSub : List Char → List Char → Bool
  | [], sub => sub.isEmpty
  | h :: t, sub => leadsWith sub (h :: t) || hasSub t sub

/-- JavaScript `s.includes(pat)`: substring containment. -/
def jsIncludes (s pat : String) : Bool := hasSub s.data pat.data

/-- JavaScript `||` on a value read from `localStorage`: `null` (here `none`)
and the empty string are falsy and fall back to the default. -/
def jsOrDefault : Option String → String → String
  | none, d => d
  | some s, d => if s.isEmpty then d else s

/-- Value of a decimal-digit character. -/
def digitVal (c : Char) : Nat := c.toNat - 48

/-- Accumulate a digit list into a natural number, most significant first. -/
def digitsToNat (ds : List Char) : Nat := ds.foldl (fun a c => a * 10 + digitVal c) 0

/-- JavaScript `parseInt(s)` (radix 10): optional sign, then the longest
digit prefix; `none` models `NaN`. -/
def jsParseInt (s : String) : Option Int :=
  match (jsTrim s).data with
  | '-' :: rest =>
    let ds := rest.takeWhile Char.isDigit
    if ds.isEmpty then none else some (-(digitsToNat ds : Int))
  | '+' :: rest =>
    let ds := rest.takeWhile Char.isDigit
    if ds.isEmpty then none else some ((digitsToNat ds : Int))
  | cs =>
    let ds := cs.takeWhile Char.isDigit
    if ds.isEmpty then none else some ((digitsToNat ds : Int))

/-- Parse an unsigned decimal, with an optional fractional part, as a rational. -/
def parseDecCore (cs : List Char) : Option ℚ :=
  let ipart := cs.takeWhile Char.isDigit
  match cs.drop ipart.length with
  | '.' :: fs =>
    let fpart := fs.takeWhile Char.isDigit
    if ipart.isEmpty && fpart.isEmpty then none
    else some ((digitsToNat ipart : ℚ) + (digitsToNat fpart : ℚ) / ((10 : ℚ) ^ fpart.length))
  | _ => if ipart.isEmpty then none else some ((digitsToNat ipart : ℚ))

/-- JavaScript `parseFloat(s)` restricted to plain decimal notation;
`none` models `NaN`. -/
def jsParseFloat (s : String) : Option ℚ :=
  match (jsTrim s).data with
  | '-' :: rest => (parseDecCore rest).map Neg.neg
  | '+' :: rest => parseDecCore rest
  | cs => parseDecCore cs

/-- JavaScript number-to-string conversion on an integer-or-`NaN` value,
as produced by `parseInt` and consumed by `toString()`. -/
def jsNumToString : Option Int → String
  | none => "NaN"
  | some k => toString k

/-! ### Lemmas about the string primitives -/

theorem leadsWith_append_right :
    ∀ (sub hay extra : List Char), leadsWith sub hay = true →
      leadsWith sub (hay ++ extra) = true := by
  intro sub
  induction sub with
  | nil => intro hay extra _; rfl
  | cons a as ih =>
    intro hay extra h
    cases hay with
    | nil => simp [leadsWith] at h
    | cons b bs =>
      simp only [leadsWith, Bool.and_eq_true] at h
      simp only [List.cons_append, leadsWith, Bool.and_eq_true]
      exact ⟨h.1, ih bs extra h.2⟩

theorem hasSub_nil_right : ∀ (hay : List Char), hasSub hay [] = true := by
  intro hay
  cases hay with
  | nil => rfl
  | cons h t => simp [hasSub, leadsWith]

theorem hasSub_append_left :
    ∀ (pre m sub : List Char), hasSub pre sub = true → hasSub (pre ++ m) sub = true := by
  intro pre
  induction pre with
  | nil =>
    intro m sub h
    simp only [hasSub, List.isEmpty_iff] at h
    subst h
    simpa using hasSub_nil_right m
  | cons h t ih =>
    intro m sub hh
    simp only [hasSub, Bool.or_eq_true] at hh
    simp only [List.cons_append, hasSub, Bool.or_eq_true]
    rcases hh with hl | hr
    · exact Or.inl (by simpa using leadsWith_append_right sub (h :: t) m hl)
    · exact Or.inr (ih m sub hr)

theorem mem_of_leadsWith :
    ∀ (sub hay : List Char), leadsWith sub hay = true → ∀ c ∈ sub, c ∈ hay := by
  intro sub
  induction sub with
  | nil => intro hay _ c hc; simp at hc
  | cons a as ih =>
    intro hay h c hc
    cases hay with
    | nil => simp [leadsWith] at h
    | cons b bs =>
      simp only [leadsWith, Bool.and_eq_true] at h
      rcases List.mem_cons.mp hc with rfl | htail
      · exact List.mem_cons.mpr (Or.inl (eq_of_beq h.1))
      · exact List.mem_cons.mpr (Or.inr (ih bs h.2 c htail))

theorem mem_of_hasSub :
    ∀ (hay sub : List Char), hasSub hay sub = true → ∀ c ∈ sub, c ∈ hay := by
  intro hay
  induction hay with
  | nil =>
    intro sub h c hc
    simp only [hasSub, List.isEmpty_iff] at h
    subst h
    simp at hc
  | cons h t ih =>
    intro sub hh c hc
    simp only [hasSub, Bool.or_eq_true] at hh
    rcases hh with hl | hr
    · exact mem_of_leadsWith sub (h :: t) hl c hc
    · exact List.mem_cons.mpr (Or.inr (ih sub hr c hc))

theorem jsIncludes_append_of_hasSub (p m pat : String)
    (h : hasSub p.data pat.data = true) : jsIncludes (p ++ m) pat = true := by
  unfold jsIncludes
  rw [String.data_append]
  exact hasSub_append_left p.data m.data pat.data h

theorem jsFalsyStr_iff (s : String) : jsFalsyStr s = true ↔ s = "" := by
  unfold jsFalsyStr
  rw [List.isEmpty_iff]
  constructor
  · intro h
    cases s with
    | mk d => subst h; rfl
  · intro h; subst h; rfl

/-- Every character of the decimal representation of a natural number is a digit. -/
theorem toDigitsCore_all_digits :
    ∀ (f n : Nat) (acc : List Char), (∀ c ∈ acc, c.isDigit = true) →
      ∀ c ∈ Nat.toDigitsCore 10 f n acc, c.isDigit = true := by
  intro f
  induction f with
  | zero => intro n acc hacc; simpa [Nat.toDigitsCore] using hacc
  | succ f ih =>
    intro n acc hacc c hc
    have hdig : (Nat.digitChar (n % 10)).isDigit = true := by
      have h10 : n % 10 < 10 := Nat.mod_lt n (by decide)
      interval_cases h : n % 10 <;> decide
    simp only [Nat.toDigitsCore] at hc
    by_cases hz : n / 10 = 0
    · rw [if_pos hz] at hc
      rcases List.mem_cons.mp hc with rfl | htail
      · exact hdig
      · exact hacc c htail
    · rw [if_neg hz] at hc
      refine ih (n / 10) (Nat.digitChar (n % 10) :: acc) ?_ c hc
      intro d hd
      rcases List.mem_cons.mp hd with rfl | hdt
      · exact hdig
      · exact hacc d hdt

theorem repr_all_digits (n : Nat) : ∀ c ∈ (Nat.repr n).data, c.isDigit = true := by
  intro c hc
  have : (Nat.repr n).data = Nat.toDigitsCore 10 (n + 1) n [] := rfl
  rw [this] at hc
  exact toDigitsCore_all_digits (n + 1) n [] (by simp) c hc

/-! ## Wire model: multipart form bodies, JSON bodies, network calls -/

/-- A binary asset as selected in a file input: declared name and raw bytes. -/
structure FileBlob where
  name : String
  content : List Nat
deriving DecidableEq

/-- A value appended to a `FormData` multipart body. -/
inductive FormValue where
  | text (s : String)
  | file (f : FileBlob)
deriving DecidableEq

/-- One `name=value` entry of a multipart body, in append order. -/
abbrev FormPart := String × FormValue

/-- A JSON scalar as produced by `JSON.stringify` on the request bodies here;
`num none` models `NaN`. -/
inductive JsonVal where
  | str (s : String)
  | num (v : Option ℚ)
deriving DecidableEq

/-- A request body: either a JSON object or a multipart form body. -/
inductive ReqBody where
  | json (fields : List (String × JsonVal))
  | multipart (parts : List FormPart)
deriving DecidableEq

/-- A network request as issued by `fetch`. -/
structure Call where
  endpoint : String
  body : ReqBody
deriving DecidableEq

/-- A call is metadata-only when its body carries no binary part. -/
def isMetadataOnlyCall (c : Call) : Bool :=
  match c.body with
  | .json _ => true
  | .multipart ps => ps.all (fun p => match p.2 with | .text _ => true | .file _ => false)

/-- The file-valued entries of a multipart body, in body order. -/
def extractFile (p : FormPart) : Option (String × FileBlob) :=
  match p.2 with
  | .file v => some (p.1, v)
  | .text _ => none

/-- All binary parts of a multipart body with their field names, in order. -/
def fileParts (ps : List FormPart) : List (String × FileBlob) := ps.filterMap extractFile

theorem fileParts_of_file_map (vs : List FileBlob) (field : String) :
    fileParts (vs.map (fun v => (field, FormValue.file v))) = vs.map (fun v => (field, v)) := by
  induction vs with
  | nil => rfl
  | cons v t ih =>
    rw [List.map_cons, List.map_cons]
    show (field, v) :: fileParts (t.map (fun v => (field, FormValue.file v)))
        = (field, v) :: t.map (fun v => (field, v))
    rw [ih]

/-- The ambient `localStorage` contents read during a submission;
`none` models an absent key (`getItem` returning `null`). -/
structure LocalStore where
  admin_id : Option String
  admin_type : Option String
deriving DecidableEq

/-- The decoded JSON body of the product endpoints:
a success flag, an optional message and an optional data payload. -/
structure RespBody (α : Type) where
  success : Bool
  message : Option String
  data : Option α
deriving DecidableEq

/-- Result of one `fetch` as observed by the calling code: either the
`try/catch` path (network failure or malformed JSON) or a decoded body. -/
inductive JsFetch (ρ : Type) where
  | netError (msg : String)
  | ok (body : ρ)
deriving DecidableEq

/-- The `data.success` flag of an outcome; a transport error counts as failure. -/
def fetchSuccess {α : Type} : JsFetch (RespBody α) → Bool
  | .netError _ => false
  | .ok b => b.success

/-- Tone of a status banner in the upload pages: styled as an error iff the
message contains `Error` or `error` (`part_000` line 100, upload page line 104). -/
def toneIsError (m : String) : Bool := jsIncludes m "Error" || jsIncludes m "error"

theorem toneIsError_error_colon (m : String) : toneIsError ("Error: " ++ m) = true := by
  unfold toneIsError
  rw [jsIncludes_append_of_hasSub "Error: " m "Error" (by decide)]
  rfl

theorem toneIsError_network (m : String) : toneIsError ("Network error: " ++ m) = true := by
  unfold toneIsError
  rw [jsIncludes_append_of_hasSub "Network error: " m "error" (by decide)]
  simp

/-! ## `AddAIProduct` (`src/unnamed/part_000`): single-call AI-course upload -/

namespace AddAIProduct

/-- One entry of the AI response `data.items` array (`part_000` lines 141-146). -/
structure Item where
  lesson_title : String
  video_gcs : String
  audio_gcs : String
  text_gcs : String
  pdf_gcs : String
  vectors : List String
deriving DecidableEq

/-- The `data` payload of a successful AI-course response (`part_000` lines 122-133). -/
structure AIData where
  product_id : String
  product_name : String
  bucket_root : String
  vector_index : String
  number_of_videos : Nat
  total_vectors : Nat
  items : List Item
deriving DecidableEq

/-- The `formData` state of the component (`part_000` lines 4-10). -/
structure FormState where
  product_name : String
  product_category : String
  suggestion_questions : String
  price : String
  videos : List FileBlob
deriving DecidableEq

/-- The reset value installed after a successful submission (`part_000` lines 70-76). -/
def emptyFormState : FormState := ⟨"", "", "", "", []⟩

/-- `handleVideosChange` (`part_000` lines 23-29): replace the selected videos
with the file list in selection order. -/
def handleVideosChange (files : List FileBlob) (prev : FormState) : FormState :=
  { prev with videos := files }

/-- The endpoint of the single combined create-and-process call (`part_000` line 58). -/
def endpointURL : String := "http://127.0.0.1:8000/api/add-ai-train-product"

/-- The multipart body built in `handleSubmit` (`part_000` lines 43-54): actor
identity (with `localStorage` fallbacks), the four text fields, then every
video appended under the shared field name `videos` in state order. -/
def submitData (st : LocalStore) (fd : FormState) : List FormPart :=
  [("admin_id", FormValue.text (jsOrDefault st.admin_id "550e8400-e29b-41d4-a716-446655440000")),
   ("admin_type", FormValue.text (jsOrDefault st.admin_type "super_admin")),
   ("product_name", FormValue.text fd.product_name),
   ("product_category", FormValue.text fd.product_category),
   ("suggestion_questions", FormValue.text fd.suggestion_questions),
   ("price", FormValue.text fd.price)]
  ++ fd.videos.map (fun v => ("videos", FormValue.file v))

/-- The success banner text (`part_000` line 66). -/
def successMessage : String := "AI training product created and processed successfully!"

/-- Observable result of one run of `handleSubmit`: the requests issued, the
final status message, the stored response data and the form state afterwards. -/
structure SubmitResult where
  calls : List Call
  message : String
  responseData : Option AIData
  formAfter : FormState
deriving DecidableEq

/-- `handleSubmit` (`part_000` lines 31-89): build the multipart body, issue
exactly one `fetch` to the combined endpoint, then branch on `data.success`;
a thrown `fetch`/`json()` is reported as a network error. -/
def handleSubmit (st : LocalStore) (fd : FormState)
    (out : JsFetch (RespBody AIData)) : SubmitResult :=
  let call : Call := ⟨endpointURL, .multipart (submitData st fd)⟩
  match out with
  | .netError m => ⟨[call], "Network error: " ++ m, none, fd⟩
  | .ok r =>
    if r.success then ⟨[call], successMessage, r.data, emptyFormState⟩
    else ⟨[call], "Error: " ++ jsOrDefault r.message "Unknown error occurred", none, fd⟩

end AddAIProduct

/-! ## `UploadDigitalProduct.jsx`: digital-file upload -/

namespace UploadDigitalProduct

/-- The `data` payload of a successful digital-product response
(`UploadDigitalProduct.jsx` lines 191-216); every field is displayed verbatim. -/
structure DigitalData where
  product_id : String
  product_name : String
  product_category : String
  file_size_mb : String
  file_format : String
  product_location : String
  vector_index : String
deriving DecidableEq

/-- The `formData` state of the component (lines 4-10). -/
structure FormState where
  product_name : String
  product_category : String
  product_description : String
  price : String
  product_file : Option FileBlob
deriving DecidableEq

/-- The endpoint of the digital-product call (line 62). -/
def endpointURL : String := "http://127.0.0.1:8000/api/add-digital-product"

/-- The multipart body built in `handleSubmit` (lines 51-58). -/
def submitData (st : LocalStore) (fd : FormState) (f : FileBlob) : List FormPart :=
  [("admin_id", FormValue.text (jsOrDefault st.admin_id "550e8400-e29b-41d4-a716-446655440000")),
   ("admin_type", FormValue.text (jsOrDefault st.admin_type "super_admin")),
   ("product_name", FormValue.text fd.product_name),
   ("product_category", FormValue.text fd.product_category),
   ("product_description", FormValue.text fd.product_description),
   ("price", FormValue.text fd.price),
   ("product_file", FormValue.file f)]

/-- The success banner text (line 70). -/
def successMessage : String := "Digital product uploaded successfully!"

/-- Observable result of one run of `handleSubmit`. -/
structure SubmitResult where
  calls : List Call
  message : String
  responseData : Option DigitalData
deriving DecidableEq

/-- `handleSubmit` (lines 33-93): reject when no file is selected (no request
issued), otherwise issue exactly one multipart call and branch on `data.success`. -/
def handleSubmit (st : LocalStore) (fd : FormState)
    (out : JsFetch (RespBody DigitalData)) : SubmitResult :=
  match fd.product_file with
  | none => ⟨[], "Error: Please select a product file", none⟩
  | some f =>
    let call : Call := ⟨endpointURL, .multipart (submitData st fd f)⟩
    match out with
    | .netError m => ⟨[call], "Network error: " ++ m, none⟩
    | .ok r =>
      if r.success then ⟨[call], successMessage, r.data⟩
      else ⟨[call], "Error: " ++ jsOrDefault r.message "Unknown error occurred", none⟩

end UploadDigitalProduct

/-! ## `AddProduct` (`AdminPanel.jsx`): the two-phase AI-course flow -/

namespace AddProduct

/-- Decoded body of the phase-1 (record-creation) response
(`AdminPanel.jsx` lines 120-123, 164). -/
structure P1Resp where
  success : Bool
  message : String
  product_id : String
deriving DecidableEq

/-- The `data` payload of the phase-2 (processing) response (lines 148-152). -/
structure P2Data where
  course_id : String
  successful_videos : Nat
  total_videos : Nat
  embeddings_created : Nat
  root_directory : String
deriving DecidableEq

/-- Decoded body of the phase-2 response (lines 145-161). -/
structure P2Resp where
  success : Bool
  message : String
  data : P2Data
deriving DecidableEq

/-- The phase-1 endpoint: metadata-only record creation (line 106). -/
def createEndpoint : String := "http://localhost:5000/api/products/ai-training"

/-- The phase-2 endpoint: video processing (line 137). -/
def processEndpoint : String := "http://127.0.0.1:8000/api/ai-processing/process-ai-product"

/-- The JSON body of the phase-1 call (lines 112-117): metadata only, no binaries. -/
def phase1Body (name category price : String) (videos : List FileBlob) :
    List (String × JsonVal) :=
  [("product_name", .str name),
   ("product_category", .str category),
   ("price", .num (jsParseFloat price)),
   ("number_of_videos", .num (some (videos.length : ℚ)))]

/-- The phase-1 call. -/
def phase1Call (name category price : String) (videos : List FileBlob) : Call :=
  ⟨createEndpoint, .json (phase1Body name category price videos)⟩

/-- The multipart body of the phase-2 call (lines 126-133): the new product
identifier, the name, then every video under the shared field `videos` in order. -/
def phase2Body (pid name : String) (videos : List FileBlob) : List FormPart :=
  [("product_id", FormValue.text pid), ("product_name", FormValue.text name)]
  ++ videos.map (fun v => ("videos", FormValue.file v))

/-- The success banner of the two-phase flow (lines 148-152). -/
def successMessage (d : P2Data) : String :=
  "AI training product created and processed successfully! \n            Course ID: "
    ++ d.course_id
    ++ "\n            Videos processed: " ++ Nat.repr d.successful_videos ++ "/"
    ++ Nat.repr d.total_videos
    ++ "\n            Embeddings created: " ++ Nat.repr d.embeddings_created
    ++ "\n            Root directory: " ++ d.root_directory

/-- Observable result of one run of `handleAISubmit`. -/
structure SubmitResult where
  calls : List Call
  message : String
deriving DecidableEq

/-- `handleAISubmit` (`AdminPanel.jsx` lines 97-171): first the metadata-only
record-creation call; only if its body reports `success` is the processing
call issued, carrying the returned `product_id` and the videos. -/
def handleAISubmit (name category price : String) (videos : List FileBlob)
    (out1 : JsFetch P1Resp) (out2 : JsFetch P2Resp) : SubmitResult :=
  let call1 := phase1Call name category price videos
  match out1 with
  | .netError m => ⟨[call1], "Network error: " ++ m⟩
  | .ok p1 =>
    if p1.success then
      let call2 : Call := ⟨processEndpoint, .multipart (phase2Body p1.product_id name videos)⟩
      match out2 with
      | .netError m => ⟨[call1, call2], "Network error: " ++ m⟩
      | .ok p2 =>
        if p2.success then ⟨[call1, call2], successMessage p2.data⟩
        else ⟨[call1, call2], "Product created but AI processing failed: " ++ p2.message⟩
    else ⟨[call1], "Error creating product: " ++ p1.message⟩

/-- The success flag of a phase-1 outcome; a transport error counts as failure. -/
def p1Success : JsFetch P1Resp → Bool
  | .netError _ => false
  | .ok p => p.success

/-- The product identifier returned by phase 1 (meaningful only on success). -/
def p1ProductId : JsFetch P1Resp → String
  | .netError _ => ""
  | .ok p => p.product_id

/-- The phase-2 call as issued for a given phase-1 outcome. -/
def phase2CallOf (name : String) (videos : List FileBlob) (out1 : JsFetch P1Resp) : Call :=
  ⟨processEndpoint, .multipart (phase2Body (p1ProductId out1) name videos)⟩

end AddProduct

/-! ## `SearchDigitalProduct.jsx`: digital-product similarity search -/

namespace SearchDigitalProduct

/-- One entry of the `results` array (lines 65-106). -/
structure SDResult where
  similarity_score : ℚ
  product_name : String
  product_category : String
  file_format : String
  product_size_mb : ℚ
  price : ℚ
  product_location : String
  product_id : String
deriving DecidableEq

/-- Decoded body of the search response (lines 34-42). -/
structure SDRespBody where
  success : Bool
  message : Option String
  total_results : Nat
  results : List SDResult
deriving DecidableEq

/-- The bounds configured on the results-count input (lines 138-139). -/
def numResultsMin : Nat := 1

/-- The upper bound configured on the results-count input (line 139). -/
def numResultsMax : Nat := 50

/-- The `onChange` handler of the results-count input (line 137):
store `parseInt` of the typed text, `NaN` (`none`) included. -/
def numResultsChange (typed : String) : Option Int := jsParseInt typed

/-- Observable result of one run of `handleSearch`: the query parameters sent
(if any), the final status message and the stored response. -/
structure SearchOutcome where
  request : Option (String × String)
  message : String
  searchResults : Option SDRespBody
deriving DecidableEq

/-- `handleSearch` (lines 10-49): reject a query that trims to empty
(no request), otherwise send `query` and `n` (the stringified state) and
branch on `data.success`. -/
def handleSearch (searchQuery : String) (numResults : Option Int)
    (resp : JsFetch SDRespBody) : SearchOutcome :=
  if jsFalsyStr (jsTrim searchQuery) then
    ⟨none, "Error: Please enter a search query", none⟩
  else
    let req := some (searchQuery, jsNumToString numResults)
    match resp with
    | .netError m => ⟨req, "Network error: " ++ m, none⟩
    | .ok b =>
      if b.success then
        ⟨req, "Found " ++ Nat.repr b.total_results ++ " digital products matching your search",
         some b⟩
      else ⟨req, "Error: " ++ jsOrDefault b.message "Search failed", none⟩

/-- Tone of the message banner (line 151): error styling iff the message
contains `Error`. -/
def messageToneIsError (m : String) : Bool := jsIncludes m "Error"

end SearchDigitalProduct

/-- The ranked cards produced by a `renderResults` body of the search pages:
`results.map((result, index) => ...)` displaying rank `#{index + 1}`
(`SearchDigitalProduct.jsx` lines 65-68, `VectorSearch.jsx` lines 100-103). -/
def renderCards {α : Type} (rs : List α) : List (Nat × α) :=
  rs.enum.map (fun p => (p.1 + 1, p.2))

namespace SearchDigitalProduct

/-- `renderResults` (lines 51-113): nothing is rendered when there is no
stored response or its result list is empty; otherwise the ranked cards. -/
def renderResults (o : SearchOutcome) : Option (List (Nat × SDResult)) :=
  match o.searchResults with
  | none => none
  | some b => if b.results.length = 0 then none else some (renderCards b.results)

end SearchDigitalProduct

/-! ## `VectorSearch.jsx`: content search inside selected products -/

namespace VectorSearch

/-- One entry of the `results` array (lines 100-130). -/
structure VSItem where
  similarity_score : ℚ
  content : String
  product_id : String
  source_file : String
  lesson_no : Nat
  page : Nat
  vector_id : String
deriving DecidableEq

/-- The `formData` state (lines 4-8); `n` is held as entered text. -/
structure FormState where
  question : String
  product_ids : String
  n : String
deriving DecidableEq

/-- Result of the validation prelude of `handleSubmit`: either a rejection
message with no request, or the query parameters sent. -/
inductive SubmitAction where
  | rejected (msg : String)
  | sent (params : List (String × String))
deriving DecidableEq

/-- `handleSubmit` validation and request construction (lines 42-70): reject a
question or a `product_ids` that trims to empty; otherwise send the raw
`question`, `product_ids` and `n` values as query parameters. -/
def handleSubmit (fd : FormState) : SubmitAction :=
  if jsFalsyStr (jsTrim fd.question) then
    .rejected "Error: Please enter a search question"
  else if jsFalsyStr (jsTrim fd.product_ids) then
    .rejected "Error: Please enter at least one product ID"
  else
    .sent [("question", fd.question), ("product_ids", fd.product_ids), ("n", fd.n)]

/-- Whether the submission was blocked by validation. -/
def isRejected : SubmitAction → Bool
  | .rejected _ => true
  | .sent _ => false

end VectorSearch

/-! ## Spec-side definitions (for the refinement comparisons) -/

/-- Split a character list at commas, keeping empty segments, as the spec's
"comma-separated list" parsing prescribes. -/
def splitCommas : List Char → List (List Char)
  | [] => [[]]
  | c :: t =>
    let r := splitCommas t
    if c == ',' then [] :: r
    else
      match r with
      | [] => [[c]]
      | h :: rt => (c :: h) :: rt

/-- Identifier parsing following the spec's words (§4.5): split the
`product_ids` string on commas, trim each segment, drop empty segments. -/
def parsedProductIds (s : String) : List String :=
  ((splitCommas s.data).map (fun cs => jsTrim ⟨cs⟩)).filter (fun t => !(jsFalsyStr t))

/-- Status values of the spec's AI-course flow (§4.3). -/
inductive SpecStatus where
  | AllProcessed
  | PartiallyProcessed
  | ProcessingFailed
deriving DecidableEq

/-- Status derivation following the spec's words (§4.3): given the input
asset count and the per-item processed flags of the phase-2 response
(`none` when the phase-2 call failed entirely), `AllProcessed` iff every
returned item is processed and the returned count equals the input count,
`PartiallyProcessed` iff at least one item is processed but not all inputs
succeeded, `ProcessingFailed` otherwise. -/
def specOverallStatus (inputCount : Nat) (phase2 : Option (List Bool)) : SpecStatus :=
  match phase2 with
  | none => .ProcessingFailed
  | some flags =>
    if flags.all (fun b => b) && flags.length == inputCount then .AllProcessed
    else if (flags.filter (fun b => b)).length ≠ 0 then .PartiallyProcessed
    else .ProcessingFailed

/-- Modelled from the spec: the backend's multipart decoder is not part of
this repository; per §4.2 and the round-trip property of §8 the wire body is
read back by field name — this returns the first value appended under the
given field, as `FormData.get` would. -/
def decodeField (body : List FormPart) (field : String) : Option FormValue :=
  (body.find? (fun p => p.1 == field)).map Prod.snd

/-- Modelled from the spec: all values appended under a shared field name, in
body order, as `FormData.getAll` would — used for the `videos` field. -/
def decodeFilesField (body : List FormPart) (field : String) : List FileBlob :=
  body.filterMap (fun p =>
    if p.1 == field then
      match p.2 with
      | .file v => some v
      | .text _ => none
    else none)

theorem decodeFilesField_file_map (vs : List FileBlob) :
    decodeFilesField (vs.map (fun v => ("videos", FormValue.file v))) "videos" = vs := by
  induction vs with
  | nil => rfl
  | cons v t ih =>
    rw [List.map_cons]
    show v :: decodeFilesField (t.map (fun v => ("videos", FormValue.file v))) "videos" = v :: t
    rw [ih]

/-! ## Shared helper lemmas for the claim theorems -/

theorem fileParts_append (a b : List FormPart) :
    fileParts (a ++ b) = fileParts a ++ fileParts b :=
  List.filterMap_append a b extractFile

theorem fileParts_text_cons (n s : String) (rest : List FormPart) :
    fileParts ((n, FormValue.text s) :: rest) = fileParts rest := rfl

theorem fileParts_nil : fileParts ([] : List FormPart) = [] := rfl

theorem fileParts_submitData (st : LocalStore) (fd : AddAIProduct.FormState) :
    fileParts (AddAIProduct.submitData st fd) = fd.videos.map (fun v => ("videos", v)) := by
  unfold AddAIProduct.submitData
  rw [fileParts_append]
  simp only [fileParts_text_cons, fileParts_nil, List.nil_append]
  exact fileParts_of_file_map fd.videos "videos"

theorem fileParts_phase2Body (pid name : String) (files : List FileBlob) :
    fileParts (AddProduct.phase2Body pid name files) = files.map (fun v => ("videos", v)) := by
  unfold AddProduct.phase2Body
  rw [fileParts_append]
  simp only [fileParts_text_cons, fileParts_nil, List.nil_append]
  exact fileParts_of_file_map files "videos"

/-- A string with a fixed non-empty first word differs from any string with a
different first character, whatever is appended after the word. -/
theorem prefixed_ne (p m t : String) (hp : p.data ≠ [])
    (hne : p.data.head? ≠ t.data.head?) : (p ++ m) ≠ t := by
  intro h
  apply hne
  have hdata : (p ++ m).data = t.data := congrArg String.data h
  rw [String.data_append] at hdata
  cases hd : p.data with
  | nil => exact absurd hd hp
  | cons c cs =>
    rw [hd] at hdata
    rw [← hdata]
    rfl

/-! ## Claim C1 -/

/-- Sample store: no admin identity in `localStorage`. -/
def cexStore : LocalStore := ⟨none, none⟩

/-- Sample selected video files. -/
def cexVideo1 : FileBlob := ⟨"lesson1.mp4", [7, 7, 7]⟩

/-- A second sample video file. -/
def cexVideo2 : FileBlob := ⟨"lesson2.mp4", [8, 8]⟩

/-- A filled-in AI-course form with one selected video. -/
def cexAIForm : AddAIProduct.FormState := ⟨"Intro to SQL", "Database", "", "19.99", [cexVideo1]⟩

/-- A successful response for the combined AI-course call. -/
def cexAIOut : JsFetch (RespBody AddAIProduct.AIData) := .ok ⟨true, none, none⟩

/-- C1 (counterexample): in the `AddAIProduct` flow (`part_000`, the code the
claim cites) a concrete ai_course submission issues exactly one call, that
call carries a video asset, and zero metadata-only record-creation calls are
ever issued — so no phase-1 call precedes asset processing. -/
theorem ai_course_no_phase1_call_cex :
    (AddAIProduct.handleSubmit cexStore cexAIForm cexAIOut).calls
        = [⟨AddAIProduct.endpointURL, .multipart (AddAIProduct.submitData cexStore cexAIForm)⟩]
    ∧ ((AddAIProduct.handleSubmit cexStore cexAIForm cexAIOut).calls.filter
          isMetadataOnlyCall) = []
    ∧ (AddAIProduct.handleSubmit cexStore cexAIForm cexAIOut).calls.length = 1 :=
  ⟨rfl, rfl, rfl⟩

/-- C1 (amended): the repository has two ai_course submission flows.
`AddAIProduct` (`part_000`) is single-phase: every submission issues exactly
one call, to the combined create-and-process endpoint, carrying metadata and
all assets together, whatever the outcome.  The `AddProduct` flow
(`AdminPanel.jsx`) is two-phase: its first call is the metadata-only
record-creation call, and the asset-processing endpoint is called exactly
when phase 1 reports success — in particular a failed phase 1 (error flag or
transport failure) issues zero processing calls. -/
theorem ai_course_orchestration_phases :
    (∀ (st : LocalStore) (fd : AddAIProduct.FormState)
        (out : JsFetch (RespBody AddAIProduct.AIData)),
      (AddAIProduct.handleSubmit st fd out).calls
        = [⟨AddAIProduct.endpointURL, .multipart (AddAIProduct.submitData st fd)⟩])
    ∧ (∀ (name category price : String) (videos : List FileBlob)
        (out1 : JsFetch AddProduct.P1Resp) (out2 : JsFetch AddProduct.P2Resp),
      (AddProduct.handleAISubmit name category price videos out1 out2).calls.head?
          = some (AddProduct.phase1Call name category price videos)
      ∧ isMetadataOnlyCall (AddProduct.phase1Call name category price videos) = true
      ∧ (AddProduct.handleAISubmit name category price videos out1 out2).calls.filter
            (fun c => c.endpoint == AddProduct.processEndpoint)
          = (if AddProduct.p1Success out1
             then [AddProduct.phase2CallOf name videos out1] else [])) := by
  constructor
  · intro st fd out
    cases out with
    | netError m => rfl
    | ok r =>
      obtain ⟨s, msg, dat⟩ := r
      cases s <;> rfl
  · intro name category price videos out1 out2
    cases out1 with
    | netError m => exact ⟨rfl, rfl, rfl⟩
    | ok p1 =>
      obtain ⟨s1, m1, pid1⟩ := p1
      cases s1 with
      | false => exact ⟨rfl, rfl, rfl⟩
      | true =>
        cases out2 with
        | netError m => exact ⟨rfl, rfl, rfl⟩
        | ok p2 =>
          obtain ⟨s2, m2, d2⟩ := p2
          cases s2 <;> exact ⟨rfl, rfl, rfl⟩

/-! ## Claim C2 -/

/-- The data payload carried by an outcome. -/
def respData {α : Type} : JsFetch (RespBody α) → Option α
  | .netError _ => none
  | .ok b => b.data

/-- An AI-course form with two selected videos. -/
def cexAIForm2 : AddAIProduct.FormState :=
  ⟨"Intro to SQL", "Database", "", "19.99", [cexVideo1, cexVideo2]⟩

/-- A processed-item record of the AI response. -/
def cexItem : AddAIProduct.Item :=
  ⟨"lesson1", "gs://v/1", "gs://a/1", "gs://t/1", "gs://p/1", ["vec-1", "vec-2"]⟩

/-- A response payload carrying only one processed item. -/
def cexAIData1 : AddAIProduct.AIData :=
  ⟨"prod-1", "Intro to SQL", "gs://root", "idx-1", 1, 2, [cexItem]⟩

/-- A `success=true` response whose item list is shorter than the input count. -/
def cexAIOutOneItem : JsFetch (RespBody AddAIProduct.AIData) := .ok ⟨true, none, some cexAIData1⟩

/-- C2 (counterexample): for a submission with 2 input videos and a
`success=true` response carrying only 1 processed item, the spec derivation
demands `PartiallyProcessed`, but the code reports the unqualified success
banner — the very same outcome as a 1-video fully-processed submission; no
count comparison or partial status exists. -/
theorem overall_status_derivation_cex :
    specOverallStatus cexAIForm2.videos.length (some [true]) = SpecStatus.PartiallyProcessed
    ∧ cexAIForm2.videos.length = 2
    ∧ cexAIData1.items.length = 1
    ∧ (AddAIProduct.handleSubmit cexStore cexAIForm2 cexAIOutOneItem).message
        = AddAIProduct.successMessage
    ∧ (AddAIProduct.handleSubmit cexStore cexAIForm2 cexAIOutOneItem).message
        = (AddAIProduct.handleSubmit cexStore cexAIForm cexAIOutOneItem).message
    ∧ (AddAIProduct.handleSubmit cexStore cexAIForm2 cexAIOutOneItem).responseData
        = some cexAIData1 :=
  ⟨rfl, rfl, rfl, rfl, rfl, rfl⟩

/-- C2 (amended): the `AddAIProduct` client derives its outcome from the
response's `success` flag alone: the success banner is shown iff the parsed
response reports `success`, and the displayed payload is the response data
verbatim — no comparison of returned item count against the input count and
no partial status exist.  In the two-phase `AddProduct` flow, a successful
phase 1 followed by a phase-2 response with `success=false` is reported with
an explicit "Product created but AI processing failed" message, so the bare
record is not silently discarded. -/
theorem overall_status_flag_only :
    (∀ (st : LocalStore) (fd : AddAIProduct.FormState)
        (out : JsFetch (RespBody AddAIProduct.AIData)),
      (((AddAIProduct.handleSubmit st fd out).message = AddAIProduct.successMessage)
          ↔ fetchSuccess out = true)
      ∧ (AddAIProduct.handleSubmit st fd out).responseData
          = (if fetchSuccess out then respData out else none))
    ∧ (∀ (name category price : String) (videos : List FileBlob)
        (p1 : AddProduct.P1Resp) (p2 : AddProduct.P2Resp),
      p1.success = true → p2.success = false →
      (AddProduct.handleAISubmit name category price videos (.ok p1) (.ok p2)).message
        = "Product created but AI processing failed: " ++ p2.message) := by
  constructor
  · intro st fd out
    cases out with
    | netError m =>
      refine ⟨⟨fun h => absurd h ?_, fun h => by simp [fetchSuccess] at h⟩, rfl⟩
      exact prefixed_ne "Network error: " m AddAIProduct.successMessage (by decide) (by decide)
    | ok r =>
      obtain ⟨s, msg, dat⟩ := r
      cases s with
      | true => exact ⟨⟨fun _ => rfl, fun _ => rfl⟩, rfl⟩
      | false =>
        refine ⟨⟨fun h => absurd h ?_, fun h => by simp [fetchSuccess] at h⟩, rfl⟩
        exact prefixed_ne "Error: " (jsOrDefault msg "Unknown error occurred")
          AddAIProduct.successMessage (by decide) (by decide)
  · intro name category price videos p1 p2 h1 h2
    obtain ⟨s1, m1, pid1⟩ := p1
    obtain ⟨s2, m2, d2⟩ := p2
    cases h1
    cases h2
    rfl

/-- C2 (amended, witness): the two-phase branch evaluated at a concrete
successful phase 1 and failed phase 2. -/
theorem overall_status_flag_only_witness :
    (AddProduct.handleAISubmit "Intro to SQL" "Database" "19.99" [cexVideo1]
        (.ok ⟨true, "", "prod-9"⟩) (.ok ⟨false, "codec failure", ⟨"", 0, 0, 0, ""⟩⟩)).message
      = "Product created but AI processing failed: " ++ "codec failure" :=
  overall_status_flag_only.2 "Intro to SQL" "Database" "19.99" [cexVideo1]
    ⟨true, "", "prod-9"⟩ ⟨false, "codec failure", ⟨"", 0, 0, 0, ""⟩⟩ rfl rfl

/-! ## Claim C3 -/

/-- C3: in both ingestion pages the banner tone is a function of the outcome
status alone — error styling appears exactly on the failure statuses
(validation failure, `success=false`, transport failure), for every
server-provided message text. -/
theorem tone_function_of_status :
    (∀ (st : LocalStore) (fd : AddAIProduct.FormState)
        (out : JsFetch (RespBody AddAIProduct.AIData)),
      toneIsError (AddAIProduct.handleSubmit st fd out).message = !(fetchSuccess out))
    ∧ (∀ (st : LocalStore) (fd : UploadDigitalProduct.FormState)
        (out : JsFetch (RespBody UploadDigitalProduct.DigitalData)),
      toneIsError (UploadDigitalProduct.handleSubmit st fd out).message
        = (fd.product_file.isNone || !(fetchSuccess out))) := by
  constructor
  · intro st fd out
    cases out with
    | netError m => exact toneIsError_network m
    | ok r =>
      obtain ⟨s, msg, dat⟩ := r
      cases s with
      | true => rfl
      | false => exact toneIsError_error_colon (jsOrDefault msg "Unknown error occurred")
  · intro st fd out
    cases hf : fd.product_file with
    | none =>
      show toneIsError (UploadDigitalProduct.handleSubmit st fd out).message = _
      unfold UploadDigitalProduct.handleSubmit
      rw [hf]
      rfl
    | some f =>
      unfold UploadDigitalProduct.handleSubmit
      rw [hf]
      cases out with
      | netError m =>
        show toneIsError ("Network error: " ++ m) = (false || !false)
        rw [toneIsError_network m]
        rfl
      | ok r =>
        obtain ⟨s, msg, dat⟩ := r
        cases s with
        | true => rfl
        | false =>
          show toneIsError ("Error: " ++ jsOrDefault msg "Unknown error occurred")
              = (false || !false)
          rw [toneIsError_error_colon (jsOrDefault msg "Unknown error occurred")]
          rfl

/-! ## Claim C4 -/

/-- C4: selected videos are stored in selection order, and in every built
multipart body (the `part_000` combined body and the `AdminPanel` phase-2
body) the binary parts are exactly the selected videos, all under the shared
field name `videos`, the asset at input position `i` at file-part position
`i` — no reordering anywhere. -/
theorem videos_positional_order :
    ∀ (files : List FileBlob) (prev : AddAIProduct.FormState) (st : LocalStore)
      (pid name : String),
      (AddAIProduct.handleVideosChange files prev).videos = files
      ∧ fileParts (AddAIProduct.submitData st (AddAIProduct.handleVideosChange files prev))
          = files.map (fun v => ("videos", v))
      ∧ fileParts (AddProduct.phase2Body pid name files)
          = files.map (fun v => ("videos", v)) := by
  intro files prev st pid name
  exact ⟨rfl, fileParts_submitData st (AddAIProduct.handleVideosChange files prev),
    fileParts_phase2Body pid name files⟩

/-! ## Claim C5 -/

/-- C5 (counterexample): the input `","` parses to zero identifiers under the
spec's comma-splitting rule, yet `VectorSearch.handleSubmit` does not reject
it — the request is sent with `product_ids=","`. -/
theorem product_ids_commas_not_rejected_cex :
    parsedProductIds "," = []
    ∧ VectorSearch.handleSubmit ⟨"what is sql", ",", "5"⟩
        = .sent [("question", "what is sql"), ("product_ids", ","), ("n", "5")] :=
  ⟨rfl, rfl⟩

/-- C5 (amended): the validation rejects (issuing no request) exactly the
submissions whose question trims to the empty string or whose `product_ids`
trims to the empty string; a `product_ids` containing any non-whitespace
character — commas included — passes validation even when it contains no
non-empty identifier. -/
theorem vector_search_validation :
    ∀ (fd : VectorSearch.FormState),
      VectorSearch.isRejected (VectorSearch.handleSubmit fd)
        = (jsFalsyStr (jsTrim fd.question) || jsFalsyStr (jsTrim fd.product_ids)) := by
  intro fd
  unfold VectorSearch.handleSubmit
  cases h1 : jsFalsyStr (jsTrim fd.question) with
  | true => simp [h1, VectorSearch.isRejected]
  | false =>
    cases h2 : jsFalsyStr (jsTrim fd.product_ids) with
    | true => simp [h1, h2, VectorSearch.isRejected]
    | false => simp [h1, h2, VectorSearch.isRejected]

/-! ## Claim C6 -/

/-- An arbitrary successful-but-empty search response body. -/
def cexSDBody : SearchDigitalProduct.SDRespBody := ⟨true, none, 0, []⟩

/-- C6 (counterexample): typing `100` into the results-count input stores
`100` and the request is sent with `n=100`, far above the configured maximum
of 50 — no clamping; typing a non-numeric value stores `NaN` and the request
is still sent, with `n=NaN`, rather than being rejected. -/
theorem result_limit_not_clamped_cex :
    SearchDigitalProduct.numResultsChange "100" = some 100
    ∧ (SearchDigitalProduct.handleSearch "database" (SearchDigitalProduct.numResultsChange "100")
          (.ok cexSDBody)).request = some ("database", "100")
    ∧ ¬(100 ≤ SearchDigitalProduct.numResultsMax)
    ∧ SearchDigitalProduct.numResultsChange "abc" = none
    ∧ (SearchDigitalProduct.handleSearch "database" (SearchDigitalProduct.numResultsChange "abc")
          (.ok cexSDBody)).request = some ("database", "NaN") := by
  refine ⟨rfl, rfl, by decide, rfl, rfl⟩

/-- C6 (amended): the client performs no clamping and no numeric rejection:
whenever the query is non-empty a request is issued whose `n` parameter is
exactly the stringified stored state — any out-of-range integer verbatim,
and the string `NaN` for non-numeric input; the `[1, 50]` bounds exist only
as HTML attributes on the input element. -/
theorem result_limit_sent_verbatim :
    ∀ (q : String) (n : Option Int) (resp : JsFetch SearchDigitalProduct.SDRespBody),
      jsFalsyStr (jsTrim q) = false →
      (SearchDigitalProduct.handleSearch q n resp).request = some (q, jsNumToString n) := by
  intro q n resp hq
  unfold SearchDigitalProduct.handleSearch
  rw [hq]
  cases resp with
  | netError m => rfl
  | ok b =>
    obtain ⟨s, msg, total, results⟩ := b
    cases s <;> rfl

/-- C6 (amended, witness): a query with the out-of-range count 100 stored is
sent with `n=100`. -/
theorem result_limit_sent_verbatim_witness :
    (SearchDigitalProduct.handleSearch "database" (some 100) (.ok cexSDBody)).request
      = some ("database", "100") :=
  result_limit_sent_verbatim "database" (some 100) (.ok cexSDBody) rfl

/-! ## Claim C7 -/

theorem renderCardsAux {α : Type} :
    ∀ (n : Nat) (l : List α),
      ((List.enumFrom n l).map (fun p => (p.1 + 1, p.2))).map Prod.snd = l
      ∧ ((List.enumFrom n l).map (fun p => (p.1 + 1, p.2))).map Prod.fst
          = List.range' (n + 1) l.length := by
  intro n l
  induction l generalizing n with
  | nil => exact ⟨rfl, rfl⟩
  | cons a t ih =>
    refine ⟨?_, ?_⟩
    · show a :: ((List.enumFrom (n + 1) t).map (fun p => (p.1 + 1, p.2))).map Prod.snd = a :: t
      rw [(ih (n + 1)).1]
    · show (n + 1) :: ((List.enumFrom (n + 1) t).map (fun p => (p.1 + 1, p.2))).map Prod.fst
          = (n + 1) :: List.range' (n + 2) t.length
      rw [(ih (n + 1)).2]

/-- C7: the rendered cards of both search pages keep the backend's return
order — the items of the cards are exactly the response's results, unchanged
and unreordered (hence no re-sorting, no re-scoring, ties left in return
order) — and the displayed rank of the card at position `i` is `i + 1`,
i.e. the ranks read `1, 2, …, N` positionally. -/
theorem rank_is_position :
    ∀ (rs : List SearchDigitalProduct.SDResult) (vs : List VectorSearch.VSItem),
      (renderCards rs).map Prod.snd = rs
      ∧ (renderCards rs).map Prod.fst = List.range' 1 rs.length
      ∧ (renderCards vs).map Prod.snd = vs
      ∧ (renderCards vs).map Prod.fst = List.range' 1 vs.length := by
  intro rs vs
  exact ⟨(renderCardsAux 0 rs).1, (renderCardsAux 0 rs).2,
    (renderCardsAux 0 vs).1, (renderCardsAux 0 vs).2⟩

/-! ## Claim C8 -/

theorem found_message_not_error (total : Nat) :
    SearchDigitalProduct.messageToneIsError
      ("Found " ++ Nat.repr total ++ " digital products matching your search") = false := by
  unfold SearchDigitalProduct.messageToneIsError jsIncludes
  cases hx : hasSub
      (String.data ("Found " ++ Nat.repr total ++ " digital products matching your search"))
      (String.data "Error") with
  | false => rfl
  | true =>
    exfalso
    have hmem : 'E' ∈ (String.data
        ("Found " ++ Nat.repr total ++ " digital products matching your search")) :=
      mem_of_hasSub _ _ hx 'E' (by decide)
    rw [String.data_append, String.data_append] at hmem
    rcases List.mem_append.mp hmem with h1 | h2
    · rcases List.mem_append.mp h1 with ha | hb
      · exact absurd ha (by decide)
      · exact absurd (repr_all_digits total 'E' hb) (by decide)
    · exact absurd h2 (by decide)

/-- C8: for every sent query, a `success=true` response with an empty
`results` array yields an informational (non-error) message and renders no
result cards, while a `success=false` response yields an error-toned
message — the two outcomes are distinct, whatever the server message and
reported total. -/
theorem empty_results_non_error :
    ∀ (q : String) (n : Option Int) (total : Nat) (m : Option String),
      jsFalsyStr (jsTrim q) = false →
      SearchDigitalProduct.messageToneIsError
          (SearchDigitalProduct.handleSearch q n (.ok ⟨true, m, total, []⟩)).message = false
      ∧ SearchDigitalProduct.renderResults
          (SearchDigitalProduct.handleSearch q n (.ok ⟨true, m, total, []⟩)) = none
      ∧ SearchDigitalProduct.messageToneIsError
          (SearchDigitalProduct.handleSearch q n (.ok ⟨false, m, total, []⟩)).message = true
      ∧ (SearchDigitalProduct.handleSearch q n (.ok ⟨true, m, total, []⟩)).message
          ≠ (SearchDigitalProduct.handleSearch q n (.ok ⟨false, m, total, []⟩)).message := by
  intro q n total m hq
  have hok : (SearchDigitalProduct.handleSearch q n (.ok ⟨true, m, total, []⟩)).message
      = "Found " ++ Nat.repr total ++ " digital products matching your search" := by
    unfold SearchDigitalProduct.handleSearch
    rw [hq]
    rfl
  have hfail : (SearchDigitalProduct.handleSearch q n (.ok ⟨false, m, total, []⟩)).message
      = "Error: " ++ jsOrDefault m "Search failed" := by
    unfold SearchDigitalProduct.handleSearch
    rw [hq]
    rfl
  have htone : SearchDigitalProduct.messageToneIsError
      ("Error: " ++ jsOrDefault m "Search failed") = true := by
    unfold SearchDigitalProduct.messageToneIsError
    exact jsIncludes_append_of_hasSub "Error: " (jsOrDefault m "Search failed") "Error" (by decide)
  refine ⟨by rw [hok]; exact found_message_not_error total, ?_, by rw [hfail]; exact htone, ?_⟩
  · unfold SearchDigitalProduct.renderResults
    unfold SearchDigitalProduct.handleSearch
    rw [hq]
    rfl
  · intro h
    have : SearchDigitalProduct.messageToneIsError
        (SearchDigitalProduct.handleSearch q n (.ok ⟨true, m, total, []⟩)).message = true := by
      rw [h, hfail]
      exact htone
    rw [hok, found_message_not_error total] at this
    exact Bool.false_ne_true this

/-- C8 (witness): the theorem evaluated at a concrete query. -/
theorem empty_results_non_error_witness :
    SearchDigitalProduct.messageToneIsError
        (SearchDigitalProduct.handleSearch "database" (some 5)
          (.ok ⟨true, none, 0, []⟩)).message = false
    ∧ SearchDigitalProduct.renderResults
        (SearchDigitalProduct.handleSearch "database" (some 5)
          (.ok ⟨true, none, 0, []⟩)) = none
    ∧ SearchDigitalProduct.messageToneIsError
        (SearchDigitalProduct.handleSearch "database" (some 5)
          (.ok ⟨false, none, 0, []⟩)).message = true
    ∧ (SearchDigitalProduct.handleSearch "database" (some 5)
          (.ok ⟨true, none, 0, []⟩)).message
        ≠ (SearchDigitalProduct.handleSearch "database" (some 5)
          (.ok ⟨false, none, 0, []⟩)).message :=
  empty_results_non_error "database" (some 5) 0 none rfl

/-! ## Claim C9 -/

/-- C9: multipart round-trip.  Decoding the wire body built by either upload
page recovers every text field value exactly as submitted — name, category,
description (digital) or suggestion questions (ai_course), and the raw price
text — and recovers each binary asset with its exact bytes, hence its exact
byte length, in order. -/
theorem encode_decode_round_trip :
    ∀ (st : LocalStore) (dfd : UploadDigitalProduct.FormState) (f : FileBlob)
      (afd : AddAIProduct.FormState),
      decodeField (UploadDigitalProduct.submitData st dfd f) "product_name"
          = some (.text dfd.product_name)
      ∧ decodeField (UploadDigitalProduct.submitData st dfd f) "product_category"
          = some (.text dfd.product_category)
      ∧ decodeField (UploadDigitalProduct.submitData st dfd f) "product_description"
          = some (.text dfd.product_description)
      ∧ decodeField (UploadDigitalProduct.submitData st dfd f) "price"
          = some (.text dfd.price)
      ∧ decodeField (UploadDigitalProduct.submitData st dfd f) "product_file"
          = some (.file f)
      ∧ decodeField (AddAIProduct.submitData st afd) "product_name"
          = some (.text afd.product_name)
      ∧ decodeField (AddAIProduct.submitData st afd) "product_category"
          = some (.text afd.product_category)
      ∧ decodeField (AddAIProduct.submitData st afd) "suggestion_questions"
          = some (.text afd.suggestion_questions)
      ∧ decodeField (AddAIProduct.submitData st afd) "price"
          = some (.text afd.price)
      ∧ decodeFilesField (AddAIProduct.submitData st afd) "videos" = afd.videos
      ∧ (decodeFilesField (AddAIProduct.submitData st afd) "videos").map
            (fun v => v.content.length)
          = afd.videos.map (fun v => v.content.length) := by
  intro st dfd f afd
  have hvids : decodeFilesField (AddAIProduct.submitData st afd) "videos" = afd.videos := by
    show decodeFilesField
        (afd.videos.map (fun v => ("videos", FormValue.file v))) "videos" = afd.videos
    exact decodeFilesField_file_map afd.videos
  exact ⟨rfl, rfl, rfl, rfl, rfl, rfl, rfl, rfl, rfl, hvids, by rw [hvids]⟩

/-! ## Claim C10 -/

/-- C10: when `localStorage` holds no admin identity, both upload flows still
build their request with the fixed fallback actor — `admin_id`
`550e8400-e29b-41d4-a716-446655440000` and `admin_type` `super_admin` as the
first two body fields — and the submission is still issued (one call), never
blocked: the digital flow only blocks on a missing file, independent of the
stored identity. -/
theorem missing_identity_fallback_actor :
    ∀ (st : LocalStore) (afd : AddAIProduct.FormState)
      (dfd : UploadDigitalProduct.FormState) (f : FileBlob)
      (out : JsFetch (RespBody AddAIProduct.AIData))
      (out2 : JsFetch (RespBody UploadDigitalProduct.DigitalData)),
      st.admin_id = none → st.admin_type = none →
      (AddAIProduct.submitData st afd).take 2
          = [("admin_id", FormValue.text "550e8400-e29b-41d4-a716-446655440000"),
             ("admin_type", FormValue.text "super_admin")]
      ∧ (AddAIProduct.handleSubmit st afd out).calls.length = 1
      ∧ (UploadDigitalProduct.submitData st dfd f).take 2
          = [("admin_id", FormValue.text "550e8400-e29b-41d4-a716-446655440000"),
             ("admin_type", FormValue.text "super_admin")]
      ∧ (UploadDigitalProduct.handleSubmit st { dfd with product_file := some f } out2).calls.length
          = 1 := by
  intro st afd dfd f out out2 h1 h2
  refine ⟨?_, ?_, ?_, ?_⟩
  · unfold AddAIProduct.submitData
    rw [h1, h2]
    rfl
  · cases out with
    | netError m => rfl
    | ok r =>
      obtain ⟨s, msg, dat⟩ := r
      cases s <;> rfl
  · unfold UploadDigitalProduct.submitData
    rw [h1, h2]
    rfl
  · cases out2 with
    | netError m => rfl
    | ok r =>
      obtain ⟨s, msg, dat⟩ := r
      cases s <;> rfl

/-- C10 (witness): the theorem evaluated at an empty store and concrete forms. -/
theorem missing_identity_fallback_actor_witness :
    (AddAIProduct.submitData ⟨none, none⟩ cexAIForm).take 2
        = [("admin_id", FormValue.text "550e8400-e29b-41d4-a716-446655440000"),
           ("admin_type", FormValue.text "super_admin")]
    ∧ (AddAIProduct.handleSubmit ⟨none, none⟩ cexAIForm cexAIOut).calls.length = 1
    ∧ (UploadDigitalProduct.submitData ⟨none, none⟩ ⟨"B", "eBook", "d", "5", none⟩ cexVideo1).take 2
        = [("admin_id", FormValue.text "550e8400-e29b-41d4-a716-446655440000"),
           ("admin_type", FormValue.text "super_admin")]
    ∧ (UploadDigitalProduct.handleSubmit ⟨none, none⟩
          { product_name := "B", product_category := "eBook", product_description := "d",
            price := "5", product_file := some cexVideo1 }
          (.ok ⟨true, none, none⟩)).calls.length = 1 :=
  missing_identity_fallback_actor ⟨none, none⟩ cexAIForm ⟨"B", "eBook", "d", "5", none⟩
    cexVideo1 cexAIOut (.ok ⟨true, none, none⟩) rfl rfl

end Isabi
